import Mathlib

/-!
Shallow embedding of the ScreenShot clip-recording pipeline
(`src/ScreenShot/image.py`) and proofs about it.

Modelling conventions:
* The module-level settings globals (`CLIP_FPS`, `CLIP_BITRATE`, `CLIP_SIZE`,
  `CLIP_CODEC`, `CLIP_FORMAT`, `CLIP_CRF`, `CLIP_DURATION_SECONDS`, `CLIP_DIR`)
  become the record `ClipSettings`; a function that executes a
  `global X; X = ...` assignment returns the updated record, a function with
  no such assignment cannot mutate the settings and so does not return them.
* `CLIP_BITRATE` is either the string "auto" or an integer, modelled by the
  inductive type `Bitrate`.
* The external encoding backend capability sets `av.codecs_available` /
  `av.formats_available` are parameters (`codecs`, `formats`).
* Python floats are modelled by exact integer arithmetic: `int(b * (fps / 30))`
  with integer `b`, `fps` becomes Nat division `b * fps / 30` (truncation
  toward zero of the exact quotient).
* `collections.deque(maxlen = n)` is a list of at most `n` elements;
  `deque.append` keeps the last `n` elements of the extended list
  (`dequeAppend`), exactly the Python semantics including `maxlen = 0`.
* The capture loop body (one iteration of the `while True` loop in
  `start_recording`) is `start_recording_tick`; it returns the ordered list
  of observable events of the iteration, the new buffer, and whether the
  loop exited.
* `queue.Queue(1)` is a `Chan` with `maxsize := 1`; `put` is only enabled
  when the queue is not full (a disabled `put` is a blocked sender).
-/

namespace ScreenShot

/-- `CLIP_BITRATE`: either the string `"auto"` or a numeric bitrate. -/
inductive Bitrate where
  | auto : Bitrate
  | num : Nat → Bitrate
deriving DecidableEq, Repr

/-- The clip-related settings globals of `image.py` as one record. -/
structure ClipSettings where
  CLIP_DIR : String
  CLIP_FPS : Nat
  CLIP_BITRATE : Bitrate
  CLIP_SIZE : Nat × Nat
  CLIP_CODEC : String
  CLIP_FORMAT : String
  CLIP_CRF : Nat
  CLIP_DURATION_SECONDS : Nat
deriving DecidableEq, Repr

/-- The static auto-bitrate table `AUTO_BITRATES` (image.py lines 59-66),
keyed by exact resolution string, values assuming 30 fps. -/
def AUTO_BITRATES : List (String × Nat) :=
  [ ("3840x2160", 30 * 1000000)
  , ("3440x1440", 25 * 1000000)
  , ("2560x1440", 20 * 1000000)
  , ("2560x1080", 15 * 1000000)
  , ("1920x1080", 10 * 1000000)
  , ("1280x720", 5 * 1000000) ]

/-- The lookup key built from the configured resolution, the Python
f-string `f"{CLIP_SIZE[0]}x{CLIP_SIZE[1]}"` (image.py line 89). -/
def sizeKey (s : ClipSettings) : String :=
  Nat.repr s.CLIP_SIZE.1 ++ "x" ++ Nat.repr s.CLIP_SIZE.2

/-- Outcome of `clip_compatibility` (image.py lines 69-99):
`ok settings msgs` is a `True` return carrying the (possibly updated)
settings and the console messages printed; `incompatible msg` is a `False`
return after printing `msg`; `keyError key` is the unhandled `KeyError`
raised by `AUTO_BITRATES[key]` when `key` is absent from the table. -/
inductive CompatResult where
  | ok : ClipSettings → List String → CompatResult
  | incompatible : String → CompatResult
  | keyError : String → CompatResult
deriving DecidableEq, Repr

/-- The console line `f"Auto bitrate set to {CLIP_BITRATE // 1_000_000} Mbps"`
(image.py lines 96-97). -/
def autoBitrateMsg (b : Nat) : String :=
  "Auto bitrate set to " ++ Nat.repr (b / 1000000) ++ " Mbps"

/-- `clip_compatibility` (image.py lines 69-99). Checks the codec against the
supported codecs, the format against the supported formats, and when
`CLIP_BITRATE == "auto"` resolves it from `AUTO_BITRATES`, scaling by
`CLIP_FPS / 30` (truncated) when `CLIP_FPS > 30`.  The `global CLIP_BITRATE`
assignment is modelled by the settings record carried in the `ok` result. -/
def clip_compatibility (codecs formats : List String) (s : ClipSettings) :
    CompatResult :=
  if s.CLIP_CODEC ∉ codecs then
    .incompatible ("Error: " ++ s.CLIP_CODEC ++ " codec is not supported")
  else if s.CLIP_FORMAT ∉ formats then
    .incompatible ("Error: " ++ s.CLIP_FORMAT ++ " format is not supported")
  else
    match s.CLIP_BITRATE with
    | .auto =>
        match AUTO_BITRATES.lookup (sizeKey s) with
        | none => .keyError (sizeKey s)
        | some b =>
            if s.CLIP_FPS > 30 then
              let b' := b * s.CLIP_FPS / 30
              .ok { s with CLIP_BITRATE := .num b' }
                [ "clip fps higher than 30, adjusting bitrate."
                , autoBitrateMsg b' ]
            else
              .ok { s with CLIP_BITRATE := .num b } [autoBitrateMsg b]
    | .num _ => .ok s []

/-- The numeric bitrate held in the settings a `clip_compatibility` call
returned `True` with, when there is one. -/
def resolvedBitrate : CompatResult → Option Nat
  | .ok s _ =>
      match s.CLIP_BITRATE with
      | .num b => some b
      | .auto => none
  | .incompatible _ => none
  | .keyError _ => none

/-- The last `n` elements of a list, in order. -/
def takeLast (n : Nat) (l : List α) : List α :=
  (l.reverse.take n).reverse

/-- `deque.append` on a `deque(maxlen = maxlen)` holding `buf` (oldest
first): the result is the last `maxlen` elements of `buf ++ [x]`.  This is
the Python semantics, including `maxlen = 0` (the deque stays empty). -/
def dequeAppend (maxlen : Nat) (buf : List α) (x : α) : List α :=
  takeLast maxlen (buf ++ [x])

/-- `maxlen` of the `video_buffer` deque created in `start_recording`:
`CLIP_DURATION_SECONDS * CLIP_FPS` (image.py line 165). -/
def clip_capacity (s : ClipSettings) : Nat :=
  s.CLIP_DURATION_SECONDS * s.CLIP_FPS

/-- Appending a whole sequence of captured frames, oldest first, to an
initially empty `video_buffer` deque of capacity `maxlen`. -/
def recordFrames (maxlen : Nat) (frames : List α) : List α :=
  frames.foldl (dequeAppend maxlen) []

/-- Observable effects of one `save_clip` call (image.py lines 102-150):
whether the empty-buffer error branch printed and returned (lines 109-111),
which output files were opened (line 120), the frames encoded into the
output in order (lines 142-147), and whether the output was closed
(line 149). -/
structure SaveEffects (α : Type) where
  reportedNoFrames : Bool
  openedFiles : List String
  encodedFrames : List α
  closed : Bool
deriving DecidableEq, Repr

/-- The output filename `f"{CLIP_DIR}clip_{clip_num}.{CLIP_FORMAT}"`
(image.py line 116), where `clip_num` is the number of entries of
`CLIP_DIR` (line 115), passed here as `clip_num`. -/
def clipFilename (s : ClipSettings) (clip_num : Nat) : String :=
  s.CLIP_DIR ++ "clip_" ++ Nat.repr clip_num ++ "." ++ s.CLIP_FORMAT

/-- `save_clip` (image.py lines 102-150).  An empty buffer prints
`"Error: No frames to save"` and returns before any file is touched;
otherwise one output file is opened, each buffered frame is encoded and
muxed in buffer order by the `for frame in video_buffer` loop, and the
output is closed. -/
def save_clip (s : ClipSettings) (clip_num : Nat) (video_buffer : List α) :
    SaveEffects α :=
  if video_buffer.length = 0 then
    { reportedNoFrames := true
      openedFiles := []
      encodedFrames := []
      closed := false }
  else
    { reportedNoFrames := false
      openedFiles := [clipFilename s clip_num]
      encodedFrames := video_buffer.foldl (fun out frame => out ++ [frame]) []
      closed := true }

/-- Observable events of one capture-loop iteration (image.py lines
168-184), in program order: `captured f` is the `pyautogui.screenshot()`
call (line 169), `appended f` the `video_buffer.append` (line 170),
`handedOff b` the `buffer_queue.put(video_buffer)` (line 174), `ackWait`
the `buffer_queue.join()` that blocks until the receiver has called
`task_done` (line 175), `cleared` the `video_buffer.clear()` (line 176),
`exited` the `break` (line 179), and `slept` the `time.sleep(1.0 /
CLIP_FPS)` (line 184). -/
inductive CaptureEvent (α : Type) where
  | captured : α → CaptureEvent α
  | appended : α → CaptureEvent α
  | handedOff : List α → CaptureEvent α
  | ackWait : CaptureEvent α
  | cleared : CaptureEvent α
  | exited : CaptureEvent α
  | slept : CaptureEvent α
deriving DecidableEq, Repr

/-- One iteration of the `while True` loop of `start_recording` (image.py
lines 168-184).  `cap` is the buffer capacity, `buf` the buffer contents at
the start of the iteration, `frame` the frame the screenshot call returns,
and `cmd` the command `queue.get_nowait()` yields (`none` when the queue is
empty and `get_nowait` raises, which the bare `except` swallows).  Returns
the events of the iteration in order, the buffer contents afterwards, and
whether the loop exited (`break`). -/
def start_recording_tick (cap : Nat) (buf : List α) (frame : α)
    (cmd : Option String) : List (CaptureEvent α) × List α × Bool :=
  let buf' := dequeAppend cap buf frame
  match cmd with
  | none =>
      ([.captured frame, .appended frame, .slept], buf', false)
  | some c =>
      if c = "save" then
        ([ .captured frame, .appended frame, .handedOff buf', .ackWait,
           .cleared, .slept ], [], false)
      else
        ([.captured frame, .appended frame, .exited], buf', true)

/-- How far `start_recording` (image.py lines 153-184) gets before its
recording loop: `aborted` is the early `return` when `clip_compatibility()`
is falsy (lines 161-162), before the `video_buffer` deque exists;
`recording s buf` means the deque was created empty (line 165) and the loop
was entered with settings `s`; `raised key` is the `KeyError` escaping from
`clip_compatibility`. -/
inductive RecorderStart (α : Type) where
  | aborted : RecorderStart α
  | recording : ClipSettings → List α → RecorderStart α
  | raised : String → RecorderStart α
deriving DecidableEq, Repr

/-- The startup phase of `start_recording` (image.py lines 153-167). -/
def start_recording (α : Type) (codecs formats : List String)
    (s : ClipSettings) : RecorderStart α :=
  match clip_compatibility codecs formats s with
  | .ok s' _ => .recording s' []
  | .incompatible _ => .aborted
  | .keyError k => .raised k

/-- A `queue.Queue(maxsize)`: `items` holds the queued messages, oldest
first. -/
structure Chan (α : Type) where
  maxsize : Nat
  items : List α
deriving Repr

/-- `Queue.put` blocks while the queue is full; a `put` step is enabled
exactly when the queue holds fewer than `maxsize` items. -/
def Chan.putEnabled (c : Chan α) : Prop :=
  c.items.length < c.maxsize

/-- `Queue.put` once it proceeds: the message joins the tail of the queue. -/
def Chan.put (c : Chan α) (x : α) : Chan α :=
  { c with items := c.items ++ [x] }

/-- `Queue.get`: consume the oldest message, if any. -/
def Chan.get (c : Chan α) : Option α × Chan α :=
  match c.items with
  | [] => (none, c)
  | x :: rest => (some x, { c with items := rest })

/-- A single pipeline operation acting on the settings globals: a
`clip_compatibility` call, one capture-loop iteration (`tick frame cmd`),
or a `save_clip` call (`save clip_num buffer`). -/
inductive PipelineOp (α : Type) where
  | compat : PipelineOp α
  | tick : α → Option String → PipelineOp α
  | save : Nat → List α → PipelineOp α

/-- The settings globals after a pipeline operation.  `clip_compatibility`
is the only one of the three whose source declares `global CLIP_BITRATE`
and assigns it (image.py lines 76, 89, 94); the capture-loop body and
`save_clip` contain no assignment to any settings global, so they leave the
settings unchanged; the `KeyError` of the auto-bitrate lookup is raised
while evaluating the right-hand side of the assignment, before any settings
global is written. -/
def applyOp (codecs formats : List String) (s : ClipSettings) :
    PipelineOp α → ClipSettings
  | .compat =>
      match clip_compatibility codecs formats s with
      | .ok s' _ => s'
      | .incompatible _ => s
      | .keyError _ => s
  | .tick _ _ => s
  | .save _ _ => s

/-- `clip_command_queue = Queue(1)` (image.py line 295). -/
def clip_command_queue : Chan String :=
  { maxsize := 1, items := [] }

/-- `clip_buffer_queue = Queue(1)` (image.py line 296). -/
def clip_buffer_queue (α : Type) : Chan (List α) :=
  { maxsize := 1, items := [] }

/-! ### Ring buffer lemmas -/

theorem takeLast_length (n : Nat) (l : List α) :
    (takeLast n l).length = min n l.length := by
  simp [takeLast]

theorem takeLast_of_length_le {n : Nat} {l : List α} (h : l.length ≤ n) :
    takeLast n l = l := by
  rw [takeLast, List.take_of_length_le (by simpa using h), List.reverse_reverse]

theorem length_dequeAppend (maxlen : Nat) (buf : List α) (x : α) :
    (dequeAppend maxlen buf x).length = min maxlen (buf.length + 1) := by
  simp [dequeAppend, takeLast_length]

theorem take_append_take (n : Nat) (a b : List α) :
    (a ++ b.take n).take n = (a ++ b).take n := by
  rw [List.take_append_eq_append_take, List.take_append_eq_append_take,
    List.take_take, Nat.min_eq_left (Nat.sub_le n a.length)]

theorem takeLast_takeLast_append (n : Nat) (m l : List α) :
    takeLast n (takeLast n m ++ l) = takeLast n (m ++ l) := by
  simp only [takeLast, List.reverse_append, List.reverse_reverse]
  rw [take_append_take]

theorem foldl_dequeAppend (n : Nat) (l : List α) :
    ∀ buf : List α, buf.length ≤ n →
      l.foldl (dequeAppend n) buf = takeLast n (buf ++ l) := by
  induction l with
  | nil =>
      intro buf h
      simpa using (takeLast_of_length_le h).symm
  | cons x t ih =>
      intro buf h
      rw [List.foldl_cons,
        ih (dequeAppend n buf x)
          (by rw [length_dequeAppend]; exact Nat.min_le_left _ _),
        dequeAppend, takeLast_takeLast_append]
      simp

theorem recordFrames_eq_takeLast (n : Nat) (frames : List α) :
    recordFrames n frames = takeLast n frames := by
  rw [recordFrames, foldl_dequeAppend n frames [] (by simp), List.nil_append]

theorem takeLast_cons_of_length_eq {n : Nat} {l : List α} (h : l.length = n)
    (a : α) : takeLast n (a :: l) = l := by
  have h1 : l.reverse.length = n := by simpa using h
  rw [takeLast, List.reverse_cons, List.take_append_eq_append_take, h1,
    Nat.sub_self, List.take_zero, List.append_nil,
    List.take_of_length_le (le_of_eq h1), List.reverse_reverse]

theorem dequeAppend_full {n : Nat} (buf : List α) (x : α)
    (hlen : buf.length = n) (hpos : 0 < n) :
    dequeAppend n buf x = buf.tail ++ [x] := by
  cases buf with
  | nil => simp at hlen; omega
  | cons a t =>
      have ht : (t ++ [x]).length = n := by
        simp only [List.length_cons] at hlen
        simpa using hlen
      simp only [dequeAppend, List.cons_append]
      rw [takeLast_cons_of_length_eq ht]
      rfl

/-! ### Claim theorems -/

/-- C1: the `video_buffer` deque never holds more than
`clip_capacity s = CLIP_DURATION_SECONDS * CLIP_FPS` frames; appending
`k > clip_capacity s` frames to an initially empty buffer leaves exactly
the last `clip_capacity s` frames in capture order; and an append to a full
non-empty buffer evicts exactly the oldest frame. -/
theorem ring_buffer_bounded_evicts_oldest (s : ClipSettings)
    (frames : List α) :
    (recordFrames (clip_capacity s) frames).length ≤ clip_capacity s ∧
    (frames.length > clip_capacity s →
      recordFrames (clip_capacity s) frames =
        takeLast (clip_capacity s) frames) ∧
    (∀ (buf : List α) (x : α), buf.length = clip_capacity s →
      0 < clip_capacity s →
      dequeAppend (clip_capacity s) buf x = buf.tail ++ [x]) := by
  refine ⟨?_, fun _ => recordFrames_eq_takeLast _ _,
    fun buf x h1 h2 => dequeAppend_full buf x h1 h2⟩
  rw [recordFrames_eq_takeLast, takeLast_length]
  exact Nat.min_le_left _ _

/-- C1 witness: duration 2 s at 10 fps gives capacity 20; appending the 25
frames `0, ..., 24` leaves exactly `5, ..., 24`; an append to the full
buffer `0, ..., 19` evicts exactly the oldest frame `0`. -/
theorem ring_buffer_bounded_evicts_oldest_witness :
    recordFrames
        (clip_capacity ⟨"./clips/", 10, .auto, (1920, 1080), "h264", "mp4",
          18, 2⟩) (List.range 25) =
      takeLast 20 (List.range 25) ∧
    dequeAppend 20 (List.range 20) 25 = (List.range 20).tail ++ [25] := by
  constructor
  · exact
      (ring_buffer_bounded_evicts_oldest
        ⟨"./clips/", 10, .auto, (1920, 1080), "h264", "mp4", 18, 2⟩
        (List.range 25)).2.1 (by decide)
  · exact
      (ring_buffer_bounded_evicts_oldest
        ⟨"./clips/", 10, .auto, (1920, 1080), "h264", "mp4", 18, 2⟩
        (List.range 25)).2.2 (List.range 20) 25 (by decide) (by decide)

theorem foldl_append_singleton (l : List α) :
    ∀ acc : List α, l.foldl (fun out frame => out ++ [frame]) acc = acc ++ l := by
  induction l with
  | nil => intro acc; simp
  | cons x t ih => intro acc; rw [List.foldl_cons, ih]; simp

/-- C2: `save_clip` on an empty buffer reports the condition and opens no
file; on a non-empty buffer it opens exactly one output file, encodes
exactly the buffered frames in their original oldest-first order, and
closes (finalizes) the output. -/
theorem save_clip_one_file_all_frames_in_order (s : ClipSettings)
    (clip_num : Nat) (video_buffer : List α) :
    (video_buffer.length = 0 →
      save_clip s clip_num video_buffer =
        { reportedNoFrames := true, openedFiles := [], encodedFrames := [],
          closed := false }) ∧
    (0 < video_buffer.length →
      save_clip s clip_num video_buffer =
        { reportedNoFrames := false,
          openedFiles := [clipFilename s clip_num],
          encodedFrames := video_buffer, closed := true }) := by
  constructor
  · intro h
    rw [save_clip, if_pos h]
  · intro h
    rw [save_clip, if_neg (by omega), foldl_append_singleton, List.nil_append]

/-- C2 witness: saving three frames with clip index 3 yields exactly one
file `./clips/clip_3.mp4` holding the three frames in order; saving the
empty buffer reports and opens nothing. -/
theorem save_clip_one_file_all_frames_in_order_witness :
    save_clip ⟨"./clips/", 30, .num 10000000, (1920, 1080), "h264", "mp4",
        18, 10⟩ 3 ([] : List Nat) =
      { reportedNoFrames := true, openedFiles := [], encodedFrames := [],
        closed := false } ∧
    save_clip ⟨"./clips/", 30, .num 10000000, (1920, 1080), "h264", "mp4",
        18, 10⟩ 3 ([10, 20, 30] : List Nat) =
      { reportedNoFrames := false, openedFiles := ["./clips/clip_3.mp4"],
        encodedFrames := [10, 20, 30], closed := true } := by
  constructor
  · exact
      (save_clip_one_file_all_frames_in_order
        ⟨"./clips/", 30, .num 10000000, (1920, 1080), "h264", "mp4", 18, 10⟩
        3 ([] : List Nat)).1 rfl
  · exact
      ((save_clip_one_file_all_frames_in_order
        ⟨"./clips/", 30, .num 10000000, (1920, 1080), "h264", "mp4", 18, 10⟩
        3 ([10, 20, 30] : List Nat)).2 (by decide)).trans (by decide)

/-- C3: one capture-loop iteration appends the captured frame and then
polls the command queue without blocking: a pending `"save"` hands the
entire current buffer (including the frame just appended) to the result
queue, waits for the receiver acknowledgment (`ackWait` strictly between
the hand-off and the clear), clears the buffer, and the loop continues; a
pending `"stop"` exits the loop; no pending command leaves the buffer and
simply continues to the next frame. -/
theorem capture_tick_command_handling (cap : Nat) (buf : List α) (frame : α)
    (cmd : Option String) :
    (cmd = some "save" →
      start_recording_tick cap buf frame cmd =
        ([.captured frame, .appended frame,
          .handedOff (dequeAppend cap buf frame), .ackWait, .cleared,
          .slept], [], false)) ∧
    (cmd = some "stop" →
      start_recording_tick cap buf frame cmd =
        ([.captured frame, .appended frame, .exited],
          dequeAppend cap buf frame, true)) ∧
    (cmd = none →
      start_recording_tick cap buf frame cmd =
        ([.captured frame, .appended frame, .slept],
          dequeAppend cap buf frame, false)) := by
  refine ⟨?_, ?_, ?_⟩ <;> rintro rfl <;> rfl

/-- C3 witness: the three command cases at capacity 2, buffer `[0]`,
captured frame `1`. -/
theorem capture_tick_command_handling_witness :
    start_recording_tick 2 [0] 1 (some "save") =
      ([.captured 1, .appended 1, .handedOff [0, 1], .ackWait, .cleared,
        .slept], ([] : List Nat), false) ∧
    start_recording_tick 2 [0] 1 (some "stop") =
      ([.captured 1, .appended 1, .exited], [0, 1], true) ∧
    start_recording_tick 2 ([0] : List Nat) 1 none =
      ([.captured 1, .appended 1, .slept], [0, 1], false) := by
  refine ⟨?_, ?_, ?_⟩
  · exact
      ((capture_tick_command_handling 2 [0] 1 (some "save")).1 rfl).trans
        (by decide)
  · exact
      ((capture_tick_command_handling 2 [0] 1 (some "stop")).2.1 rfl).trans
        (by decide)
  · exact
      ((capture_tick_command_handling 2 [0] 1 none).2.2 rfl).trans
        (by decide)

theorem clip_compatibility_auto_eq (codecs formats : List String)
    (s : ClipSettings) (b : Nat) (hc : s.CLIP_CODEC ∈ codecs)
    (hf : s.CLIP_FORMAT ∈ formats) (ha : s.CLIP_BITRATE = .auto)
    (hb : AUTO_BITRATES.lookup (sizeKey s) = some b) :
    clip_compatibility codecs formats s =
      if s.CLIP_FPS > 30 then
        .ok { s with CLIP_BITRATE := .num (b * s.CLIP_FPS / 30) }
          [ "clip fps higher than 30, adjusting bitrate."
          , autoBitrateMsg (b * s.CLIP_FPS / 30) ]
      else
        .ok { s with CLIP_BITRATE := .num b } [autoBitrateMsg b] := by
  rw [clip_compatibility, if_neg (not_not_intro hc),
    if_neg (not_not_intro hf), ha, hb]

/-- C4 counterexample: at fps 31 with the 1280x720 table entry (5000000),
the code resolves the bitrate to the integer 5166666, which is not the
exactly proportional value 5000000 * 31 / 30 = 5166666.66...; so the clause
"for clip_fps > 30 the resolved bitrate equals the table value scaled
proportionally by clip_fps / 30" fails as stated. -/
theorem auto_bitrate_not_exactly_proportional :
    resolvedBitrate
        (clip_compatibility ["h264"] ["mp4"]
          ⟨"./clips/", 31, .auto, (1280, 720), "h264", "mp4", 18, 10⟩) =
      some 5166666 ∧
    ¬ ((5166666 : ℚ) = (5000000 : ℚ) * 31 / 30) := by
  constructor
  · decide
  · norm_num

/-- C4 (amended): with supported codec and format, `CLIP_BITRATE = "auto"`
and the resolution present in `AUTO_BITRATES` with value `b`: for
`CLIP_FPS ≤ 30` the resolved bitrate is exactly `b`; for `CLIP_FPS > 30` it
is `b * CLIP_FPS / 30` truncated to an integer; in particular at
`CLIP_FPS = 60` it is exactly `2 * b`. -/
theorem auto_bitrate_scaling (codecs formats : List String)
    (s : ClipSettings) (b : Nat) (hc : s.CLIP_CODEC ∈ codecs)
    (hf : s.CLIP_FORMAT ∈ formats) (ha : s.CLIP_BITRATE = .auto)
    (hb : AUTO_BITRATES.lookup (sizeKey s) = some b) :
    (s.CLIP_FPS ≤ 30 →
      resolvedBitrate (clip_compatibility codecs formats s) = some b) ∧
    (30 < s.CLIP_FPS →
      resolvedBitrate (clip_compatibility codecs formats s) =
        some (b * s.CLIP_FPS / 30)) ∧
    (s.CLIP_FPS = 60 →
      resolvedBitrate (clip_compatibility codecs formats s) =
        some (2 * b)) := by
  rw [clip_compatibility_auto_eq codecs formats s b hc hf ha hb]
  refine ⟨?_, ?_, ?_⟩
  · intro h
    rw [if_neg (by omega)]
    rfl
  · intro h
    rw [if_pos h]
    rfl
  · intro h
    rw [if_pos (by omega), h]
    show some (b * 60 / 30) = some (2 * b)
    congr 1
    omega

/-- C4 witness: at 1920x1080 (table value 10000000), fps 30 resolves to
exactly 10000000, fps 60 to exactly 20000000. -/
theorem auto_bitrate_scaling_witness :
    resolvedBitrate
        (clip_compatibility ["h264"] ["mp4"]
          ⟨"./clips/", 30, .auto, (1920, 1080), "h264", "mp4", 18, 10⟩) =
      some 10000000 ∧
    resolvedBitrate
        (clip_compatibility ["h264"] ["mp4"]
          ⟨"./clips/", 60, .auto, (1920, 1080), "h264", "mp4", 18, 10⟩) =
      some 20000000 := by
  constructor
  · exact
      (auto_bitrate_scaling ["h264"] ["mp4"]
        ⟨"./clips/", 30, .auto, (1920, 1080), "h264", "mp4", 18, 10⟩
        10000000 (by decide) (by decide) rfl (by decide)).1 (by decide)
  · exact
      ((auto_bitrate_scaling ["h264"] ["mp4"]
        ⟨"./clips/", 60, .auto, (1920, 1080), "h264", "mp4", 18, 10⟩
        10000000 (by decide) (by decide) rfl (by decide)).2.2 rfl).trans
        (by decide)

/-- C5: an unsupported codec or container format makes `clip_compatibility`
print an error and return `False`, and makes `start_recording` return
before the `video_buffer` deque is created and before the recording loop is
entered, so no encoder, buffer, or output file ever exists. -/
theorem unsupported_codec_or_format_aborts (α : Type)
    (codecs formats : List String) (s : ClipSettings)
    (h : s.CLIP_CODEC ∉ codecs ∨ s.CLIP_FORMAT ∉ formats) :
    (∃ msg, clip_compatibility codecs formats s = .incompatible msg) ∧
    start_recording α codecs formats s = .aborted := by
  have hcompat :
      ∃ msg, clip_compatibility codecs formats s = .incompatible msg := by
    by_cases hc : s.CLIP_CODEC ∈ codecs
    · have hf : s.CLIP_FORMAT ∉ formats := h.resolve_left (not_not_intro hc)
      exact ⟨_, by rw [clip_compatibility, if_neg (not_not_intro hc),
        if_pos hf]⟩
    · exact ⟨_, by rw [clip_compatibility, if_pos hc]⟩
  obtain ⟨msg, hm⟩ := hcompat
  exact ⟨⟨msg, hm⟩, by rw [start_recording, hm]⟩

/-- C5 witness: codec `"made_up_codec"` against backend codecs `["h264"]`
is rejected with the exact error line, and `start_recording` aborts. -/
theorem unsupported_codec_or_format_aborts_witness :
    clip_compatibility ["h264"] ["mp4"]
        ⟨"./clips/", 30, .num 10000000, (1920, 1080), "made_up_codec",
          "mp4", 18, 10⟩ =
      .incompatible "Error: made_up_codec codec is not supported" ∧
    start_recording Nat ["h264"] ["mp4"]
        ⟨"./clips/", 30, .num 10000000, (1920, 1080), "made_up_codec",
          "mp4", 18, 10⟩ =
      .aborted := by
  have h :=
    unsupported_codec_or_format_aborts Nat ["h264"] ["mp4"]
      ⟨"./clips/", 30, .num 10000000, (1920, 1080), "made_up_codec", "mp4",
        18, 10⟩ (Or.inl (by decide))
  exact ⟨by decide, h.2⟩

/-- C7: with supported codec and format, `CLIP_BITRATE = "auto"` and a
resolution absent from `AUTO_BITRATES`, `clip_compatibility` ends in the
unhandled `KeyError` of `AUTO_BITRATES[key]`: the result is the
`keyError` outcome, which is neither the `ok` verdict, nor the reported
`incompatible` verdict, nor any fallback bitrate. -/
theorem auto_bitrate_unknown_resolution_raises (codecs formats : List String)
    (s : ClipSettings) (hc : s.CLIP_CODEC ∈ codecs)
    (hf : s.CLIP_FORMAT ∈ formats) (ha : s.CLIP_BITRATE = .auto)
    (hb : AUTO_BITRATES.lookup (sizeKey s) = none) :
    clip_compatibility codecs formats s = .keyError (sizeKey s) := by
  rw [clip_compatibility, if_neg (not_not_intro hc),
    if_neg (not_not_intro hf), ha, hb]

/-- C7 witness: resolution 800x600 is not a table key, so the call raises
`KeyError "800x600"`. -/
theorem auto_bitrate_unknown_resolution_raises_witness :
    clip_compatibility ["h264"] ["mp4"]
        ⟨"./clips/", 30, .auto, (800, 600), "h264", "mp4", 18, 10⟩ =
      .keyError "800x600" := by
  exact
    (auto_bitrate_unknown_resolution_raises ["h264"] ["mp4"]
      ⟨"./clips/", 30, .auto, (800, 600), "h264", "mp4", 18, 10⟩
      (by decide) (by decide) rfl (by decide)).trans (by decide)

theorem clip_compatibility_of_resolved (codecs formats : List String)
    (s : ClipSettings) (b : Nat) (hc : s.CLIP_CODEC ∈ codecs)
    (hf : s.CLIP_FORMAT ∈ formats) (hb : s.CLIP_BITRATE = .num b) :
    clip_compatibility codecs formats s = .ok s [] := by
  rw [clip_compatibility, if_neg (not_not_intro hc),
    if_neg (not_not_intro hf), hb]

theorem clip_compatibility_ok_resolved (codecs formats : List String)
    {s s' : ClipSettings} {msgs : List String}
    (h : clip_compatibility codecs formats s = .ok s' msgs) :
    s'.CLIP_CODEC ∈ codecs ∧ s'.CLIP_FORMAT ∈ formats ∧
      ∃ b, s'.CLIP_BITRATE = .num b := by
  rw [clip_compatibility] at h
  split at h
  · exact absurd h (by simp)
  next hc =>
    split at h
    · exact absurd h (by simp)
    next hf =>
      split at h
      next heq =>
        split at h
        · exact absurd h (by simp)
        next b hlook =>
          split at h
          · injection h with h1 h2
            subst h1
            exact ⟨not_not.mp hc, not_not.mp hf, _, rfl⟩
          · injection h with h1 h2
            subst h1
            exact ⟨not_not.mp hc, not_not.mp hf, _, rfl⟩
      next b heq =>
        injection h with h1 h2
        subst h1
        exact ⟨not_not.mp hc, not_not.mp hf, b, heq⟩

theorem clip_compatibility_ok_fixed (codecs formats : List String)
    {s s' : ClipSettings} {msgs : List String}
    (h : clip_compatibility codecs formats s = .ok s' msgs) :
    clip_compatibility codecs formats s' = .ok s' [] := by
  obtain ⟨hc, hf, b, hb⟩ := clip_compatibility_ok_resolved codecs formats h
  exact clip_compatibility_of_resolved codecs formats s' b hc hf hb

/-- C6: once one `clip_compatibility` call has validated the settings and
resolved the bitrate (the startup call made by `start_recording`), no
sequence of further pipeline operations — `clip_compatibility` calls,
capture-loop iterations, `save_clip` calls — changes the settings. -/
theorem settings_resolved_once_never_mutated (α : Type)
    (codecs formats : List String) (s₀ s₁ : ClipSettings)
    (msgs : List String)
    (h : clip_compatibility codecs formats s₀ = .ok s₁ msgs)
    (ops : List (PipelineOp α)) :
    ops.foldl (applyOp codecs formats) s₁ = s₁ := by
  induction ops with
  | nil => rfl
  | cons op t ih =>
      rw [List.foldl_cons]
      have hop : applyOp codecs formats s₁ op = s₁ := by
        cases op with
        | compat => simp [applyOp, clip_compatibility_ok_fixed codecs formats h]
        | tick f c => rfl
        | save n bfr => rfl
      rw [hop]
      exact ih

/-- C6 witness: the resolved 1920x1080 settings survive a capture tick, a
`save_clip` call and a second `clip_compatibility` call unchanged. -/
theorem settings_resolved_once_never_mutated_witness :
    ([PipelineOp.tick 5 (some "save"), PipelineOp.save 0 [1, 2],
        PipelineOp.compat] : List (PipelineOp Nat)).foldl
        (applyOp ["h264"] ["mp4"])
        ⟨"./clips/", 30, .num 10000000, (1920, 1080), "h264", "mp4", 18,
          10⟩ =
      ⟨"./clips/", 30, .num 10000000, (1920, 1080), "h264", "mp4", 18,
        10⟩ :=
  settings_resolved_once_never_mutated Nat ["h264"] ["mp4"]
    ⟨"./clips/", 30, .auto, (1920, 1080), "h264", "mp4", 18, 10⟩
    ⟨"./clips/", 30, .num 10000000, (1920, 1080), "h264", "mp4", 18, 10⟩
    ["Auto bitrate set to 10 Mbps"] (by decide)
    [PipelineOp.tick 5 (some "save"), PipelineOp.save 0 [1, 2],
      PipelineOp.compat]

/-- C8 counterexample: with `CLIP_DURATION_SECONDS = 0` the capacity
`clip_capacity = 0 * 30 = 0`, the appended frame is evicted at once, a
pending `"save"` hands off the empty buffer, and `save_clip` on that
buffer reaches its empty-sequence error branch — so the hand-off is not
always non-empty and the branch is reachable through the pipeline. -/
theorem save_handoff_can_be_empty :
    start_recording_tick
        (clip_capacity ⟨"./clips/", 30, .num 10000000, (1920, 1080), "h264",
          "mp4", 18, 0⟩) ([] : List Nat) 7 (some "save") =
      ([.captured 7, .appended 7, .handedOff [], .ackWait, .cleared,
        .slept], [], false) ∧
    (save_clip ⟨"./clips/", 30, .num 10000000, (1920, 1080), "h264", "mp4",
        18, 0⟩ 0 ([] : List Nat)).reportedNoFrames = true := by
  constructor <;> decide

/-- C8 (amended): provided the buffer capacity
`clip_capacity s = CLIP_DURATION_SECONDS * CLIP_FPS` is positive, every
buffer a capture-loop iteration hands to the result queue is non-empty
(a frame is appended before the command poll), so the empty-sequence error
branch of `save_clip` is unreachable through the recording pipeline. -/
theorem save_handoff_nonempty (s : ClipSettings) (clip_num : Nat)
    (buf : List α) (frame : α) (cmd : Option String) (b : List α)
    (hcap : 0 < clip_capacity s)
    (hb : CaptureEvent.handedOff b ∈
      (start_recording_tick (clip_capacity s) buf frame cmd).1) :
    b ≠ [] ∧ (save_clip s clip_num b).reportedNoFrames = false := by
  have hbe : b = dequeAppend (clip_capacity s) buf frame := by
    cases cmd with
    | none => simp [start_recording_tick] at hb
    | some c =>
        by_cases hc : c = "save"
        · subst hc
          simpa [start_recording_tick] using hb
        · simp [start_recording_tick, hc] at hb
  have hpos : 0 < b.length := by
    rw [hbe, length_dequeAppend]
    exact lt_min hcap (Nat.succ_pos _)
  refine ⟨?_, ?_⟩
  · exact List.ne_nil_of_length_pos hpos
  · rw [save_clip, if_neg (by omega)]

/-- C8 (amended) witness: duration 2 s at 10 fps (capacity 20), buffer
`[0]`, frame `1`, pending `"save"`: the handed-off buffer `[0, 1]` is
non-empty and `save_clip` does not take the error branch on it. -/
theorem save_handoff_nonempty_witness :
    ([0, 1] : List Nat) ≠ [] ∧
    (save_clip ⟨"./clips/", 10, .num 10000000, (1920, 1080), "h264", "mp4",
        18, 2⟩ 0 ([0, 1] : List Nat)).reportedNoFrames = false :=
  save_handoff_nonempty
    ⟨"./clips/", 10, .num 10000000, (1920, 1080), "h264", "mp4", 18, 2⟩
    0 [0] 1 (some "save") [0, 1] (by decide) (by decide)

/-- C9: after a `clip_compatibility` call has succeeded (resolving any
`"auto"` bitrate to a number), calling it again on the resulting settings
returns `True` with the very same settings and prints nothing — in
particular the above-30-fps scaling is never applied twice. -/
theorem clip_compatibility_idempotent (codecs formats : List String)
    (s s' : ClipSettings) (msgs : List String)
    (h : clip_compatibility codecs formats s = .ok s' msgs) :
    clip_compatibility codecs formats s' = .ok s' [] :=
  clip_compatibility_ok_fixed codecs formats h

/-- C9 witness: at fps 60 the first call scales 10000000 to 20000000;
the second call returns `True` and leaves 20000000 unscaled. -/
theorem clip_compatibility_idempotent_witness :
    clip_compatibility ["h264"] ["mp4"]
        ⟨"./clips/", 60, .num 20000000, (1920, 1080), "h264", "mp4", 18,
          10⟩ =
      .ok ⟨"./clips/", 60, .num 20000000, (1920, 1080), "h264", "mp4", 18,
        10⟩ [] :=
  clip_compatibility_idempotent ["h264"] ["mp4"]
    ⟨"./clips/", 60, .auto, (1920, 1080), "h264", "mp4", 18, 10⟩
    ⟨"./clips/", 60, .num 20000000, (1920, 1080), "h264", "mp4", 18, 10⟩
    [ "clip fps higher than 30, adjusting bitrate."
    , "Auto bitrate set to 20 Mbps" ] (by decide)

/-- C10: `main` creates both the command queue and the result queue with
capacity 1, and on a capacity-1 queue a `put` is blocked (not enabled)
exactly while a prior message sits unconsumed, becoming enabled again once
a `get` consumes it. -/
theorem capacity_one_channels_block (α : Type) :
    clip_command_queue.maxsize = 1 ∧ (clip_buffer_queue α).maxsize = 1 ∧
    ∀ (c : Chan String) (prior : String), c.maxsize = 1 →
      c.items = [prior] → ¬ c.putEnabled ∧ (c.get).2.putEnabled := by
  refine ⟨rfl, rfl, fun c prior h1 h2 => ⟨?_, ?_⟩⟩
  · simp [Chan.putEnabled, h1, h2]
  · simp [Chan.get, Chan.putEnabled, h1, h2]

/-- C10 witness: a capacity-1 queue holding an unconsumed `"save"` blocks a
further `put`; after one `get` the `put` is enabled again. -/
theorem capacity_one_channels_block_witness :
    ¬ (Chan.putEnabled { maxsize := 1, items := ["save"] }) ∧
    Chan.putEnabled
      ((Chan.get { maxsize := 1, items := ["save"] }).2) :=
  (capacity_one_channels_block Nat).2.2
    { maxsize := 1, items := ["save"] } "save" rfl rfl

end ScreenShot
